import Mathlib

/-!
# Formal model of the footballManagerPro roster store

A shallow embedding of the player-roster core of the repository:

* `src/backend/app/models.py` — the `Player` class (constructor validation and
  the three mutating methods) and the module-level initial roster `players`.
* `src/backend/app/main.py` — the FastAPI handlers `get_players`,
  `create_player`, `transfer_player`, `update_player_value`, `delete_player`,
  which guard the index range and delegate to the `Player` methods.
* `src/backend/main.py` — a duplicated variant whose `setNewClub` writes the
  value directly instead of delegating to `setNewPlayerValue`
  (embedded under namespace `MainPy`).
* `src/playerObj.py` — the terminal variant whose `setNewPlayerValue` takes
  the absolute value of its argument instead of rejecting negatives
  (embedded under namespace `Terminal`).

Python floats are modelled as `Rat` (every numeric literal in the claims is
exact in `Rat`, and only `+`, `-`, `abs`, comparison occur). Python strings
are Lean `String`s; `str.strip()` is `pyStrip`. Python exceptions are
modelled by state passing: each mutating method returns the resulting object
state *and* an optional error, because a Python method that raises after
assigning to `self` still leaves the assignment in place. Error messages are
tracked as the enumeration `ErrMsg` rather than as strings; `float(...)`
conversion failures (TypeError paths) do not arise in the typed embedding.
-/

/-- Error message identities used by the source (messages abbreviated to an
enumeration; the exact wording is irrelevant to behaviour). -/
inductive ErrMsg where
  /-- "Name, position, and club cannot be empty" -/
  | emptyFields : ErrMsg
  /-- "Player value cannot be negative" -/
  | negativeValue : ErrMsg
  /-- "Invalid position. Must be one of: ..." -/
  | invalidPosition : ErrMsg
  /-- "New club cannot be empty" -/
  | emptyClub : ErrMsg
  /-- "Invalid transfer money format. Must be a number" -/
  | invalidFormat : ErrMsg
deriving DecidableEq, Repr

/-- Errors surfaced by the handlers: `validation` is a `ValueError` → HTTP 400,
`notFound` is the handlers' 404 for an out-of-range index. -/
inductive ApiError where
  | validation : ErrMsg → ApiError
  | notFound : ApiError
deriving DecidableEq, Repr

/-- A roster record, after `src/backend/app/models.py` class `Player`
(fields `name`, `position`, `club`, `value`). -/
structure Player where
  name : String
  position : String
  club : String
  value : Rat
deriving DecidableEq, Repr

/-- `VALID_POSITIONS = {'GK', 'DF', 'CM', 'FW'}` from
`src/backend/app/models.py`. -/
def VALID_POSITIONS : List String := ["GK", "DF", "CM", "FW"]

/-- Whitespace characters recognised by Python `str.strip()` with no
argument (space, tab, newline, carriage return, vertical tab, form feed). -/
def isPySpace (c : Char) : Bool :=
  c == ' ' || c == '\t' || c == '\n' || c == '\r' || c == '\x0b' || c == '\x0c'

/-- Python `s.strip()`: remove leading and trailing whitespace. -/
def pyStrip (s : String) : String :=
  ⟨((s.data.dropWhile isPySpace).reverse.dropWhile isPySpace).reverse⟩

/-- `Player.__init__` from `src/backend/app/models.py`: rejects when
`name`/`position`/`club` is falsy (the empty string), when `value < 0`, or
when `position` is not in `VALID_POSITIONS`; on success stores the three
strings stripped and the value unchanged. -/
def Player.init (name position club : String) (value : Rat) :
    Except ApiError Player :=
  if name = "" ∨ position = "" ∨ club = "" then
    .error (.validation .emptyFields)
  else if value < 0 then
    .error (.validation .negativeValue)
  else if position ∉ VALID_POSITIONS then
    .error (.validation .invalidPosition)
  else
    .ok { name := pyStrip name, position := pyStrip position,
          club := pyStrip club, value := value }

/-- `Player.inOrDecrisePlayerValue` from `src/backend/app/models.py`:
if `amount < 0` then `amount = abs(amount); self.value -= amount`, else
`self.value += amount`. Never raises on a numeric argument. -/
def Player.inOrDecrisePlayerValue (p : Player) (amount : Rat) : Player :=
  if amount < 0 then { p with value := p.value - |amount| }
  else { p with value := p.value + amount }

/-- `Player.setNewPlayerValue` from `src/backend/app/models.py`: raises
`ValueError("Player value cannot be negative")` when `newValue < 0`,
otherwise assigns `self.value = newValue`. -/
def Player.setNewPlayerValue (p : Player) (newValue : Rat) :
    Player × Option ApiError :=
  if newValue < 0 then (p, some (.validation .negativeValue))
  else ({ p with value := newValue }, none)

/-- `Player.setNewClub` from `src/backend/app/models.py`: rejects a falsy or
blank-after-strip `newClub`; inside the `try`, a negative `transferMoney`
raises `ValueError("Transfer money cannot be negative")`, which the `except`
clause converts to the `invalidFormat` message (only the nested
"Player value cannot be negative" message is re-raised unchanged); on the
happy path it assigns `self.club = newClub.strip()` and then delegates to
`setNewPlayerValue(transferMoney)`. -/
def Player.setNewClub (p : Player) (newClub : String) (transferMoney : Rat) :
    Player × Option ApiError :=
  if newClub = "" ∨ pyStrip newClub = "" then
    (p, some (.validation .emptyClub))
  else if transferMoney < 0 then
    (p, some (.validation .invalidFormat))
  else
    let r := Player.setNewPlayerValue { p with club := pyStrip newClub }
      transferMoney
    (r.1, r.2.map fun e =>
      if e = .validation .negativeValue then e else .validation .invalidFormat)

/-- `setNewClub` from the duplicated `src/backend/main.py` variant: the same
validation, but on success it assigns `self.value = transferMoney` directly
instead of calling `setNewPlayerValue`. -/
def MainPy.setNewClub (p : Player) (newClub : String) (transferMoney : Rat) :
    Player × Option ApiError :=
  if newClub = "" ∨ pyStrip newClub = "" then
    (p, some (.validation .emptyClub))
  else if transferMoney < 0 then
    (p, some (.validation .invalidFormat))
  else
    ({ p with club := pyStrip newClub, value := transferMoney }, none)

/-- `Player.setNewPlayerValue` from the terminal variant `src/playerObj.py`:
`newValue = abs(newValue); self.value = newValue` — negative inputs are
coerced to their absolute value, never rejected. -/
def Terminal.setNewPlayerValue (p : Player) (newValue : Rat) : Player :=
  { p with value := |newValue| }

/-- The module-level initial roster `players` from
`src/backend/app/models.py`. -/
def players : List Player :=
  [ ⟨"Erling Haaland", "FW", "Manchester City", 180⟩,
    ⟨"Jude Bellingham", "CM", "Real Madrid", 150⟩,
    ⟨"Kylian Mbappé", "FW", "PSG", 180⟩,
    ⟨"Vinicius Jr", "FW", "Real Madrid", 150⟩,
    ⟨"Phil Foden", "CM", "Manchester City", 130⟩ ]

/-- The wire representation produced by `Player.to_dict` /
`PlayerResponse` in `src/backend/app/models.py`. -/
structure PlayerResponse where
  name : String
  position : String
  club : String
  value : Rat
deriving DecidableEq, Repr

/-- `Player.to_dict` from `src/backend/app/models.py`: the four fields,
verbatim. -/
def Player.to_dict (p : Player) : PlayerResponse :=
  ⟨p.name, p.position, p.club, p.value⟩

/-- Apply the in-place method `f` to the element at position `n`, keeping the
rest of the list: this is `players[n].method(...)` on the Python list. The
`[]` base case is unreachable under the handlers' range guard; it reports
`notFound` like the guard would. -/
def applyAt (f : Player → Player × Option ApiError) :
    List Player → Nat → List Player × Option ApiError
  | [], _ => ([], some ApiError.notFound)
  | p :: ps, 0 => ((f p).1 :: ps, (f p).2)
  | p :: ps, n + 1 => (p :: (applyAt f ps n).1, (applyAt f ps n).2)

/-- `players.pop(n)`: remove and return the element at position `n`. The `[]`
base case is unreachable under the handlers' range guard. -/
def popAt : List Player → Nat → List Player × Except ApiError Player
  | [], _ => ([], Except.error ApiError.notFound)
  | p :: ps, 0 => (ps, Except.ok p)
  | p :: ps, n + 1 => (p :: (popAt ps n).1, (popAt ps n).2)

/-- Handler `get_players` (`GET /players`) from `src/backend/app/main.py`:
returns `[player.to_dict() for player in players]` and does not touch the
roster. -/
def get_players (ps : List Player) : List Player × List PlayerResponse :=
  (ps, ps.map Player.to_dict)

/-- Handler `create_player` (`POST /players`) from `src/backend/app/main.py`:
re-checks `value < 0`, constructs the `Player` (whose constructor validates),
and appends it on success; a constructor failure appends nothing. The
pydantic `PlayerBase` layer upstream re-checks the same conditions and adds
none that matter here. -/
def create_player (ps : List Player) (name position club : String)
    (value : Rat) : List Player × Option ApiError :=
  if value < 0 then (ps, some (.validation .negativeValue))
  else
    match Player.init name position club value with
    | .ok p => (ps ++ [p], none)
    | .error e => (ps, some e)

/-- Handler `transfer_player` (`PUT /players/{id}/transfer`) from
`src/backend/app/main.py`: `if not 0 <= player_id < len(players)` → 404,
else `players[player_id].setNewClub(new_club, transfer_money)`. -/
def transfer_player (ps : List Player) (i : Int) (newClub : String)
    (fee : Rat) : List Player × Option ApiError :=
  if 0 ≤ i ∧ i < (ps.length : Int) then
    applyAt (fun p => p.setNewClub newClub fee) ps i.toNat
  else (ps, some .notFound)

/-- Handler `update_player_value` (`PUT /players/{id}/value`) from
`src/backend/app/main.py`: range guard, then
`players[player_id].inOrDecrisePlayerValue(amount)` (which never fails on a
numeric amount). -/
def update_player_value (ps : List Player) (i : Int) (amount : Rat) :
    List Player × Option ApiError :=
  if 0 ≤ i ∧ i < (ps.length : Int) then
    applyAt (fun p => (p.inOrDecrisePlayerValue amount, none)) ps i.toNat
  else (ps, some .notFound)

/-- The roster-level SetAbsoluteValue operation of the spec: no HTTP route in
the source calls `setNewPlayerValue` directly, so the index guard here
follows the identical `if not 0 <= player_id < len(players)` pattern of the
three sibling handlers, and the per-player behaviour is
`Player.setNewPlayerValue` from `src/backend/app/models.py`. -/
def set_player_value (ps : List Player) (i : Int) (v : Rat) :
    List Player × Option ApiError :=
  if 0 ≤ i ∧ i < (ps.length : Int) then
    applyAt (fun p => p.setNewPlayerValue v) ps i.toNat
  else (ps, some .notFound)

/-- Handler `delete_player` (`DELETE /players/{id}`) from
`src/backend/app/main.py`: range guard, then `players.pop(player_id)`. -/
def delete_player (ps : List Player) (i : Int) :
    List Player × Except ApiError Player :=
  if 0 ≤ i ∧ i < (ps.length : Int) then popAt ps i.toNat
  else (ps, .error .notFound)

/-! ## Helper lemmas about `applyAt` and `popAt` -/

theorem applyAt_fst_length (f : Player → Player × Option ApiError)
    (ps : List Player) (n : Nat) : (applyAt f ps n).1.length = ps.length := by
  induction ps generalizing n with
  | nil => simp [applyAt]
  | cons p ps ih =>
    cases n with
    | zero => simp [applyAt]
    | succ n => simp [applyAt, ih]

theorem applyAt_snd (f : Player → Player × Option ApiError)
    (ps : List Player) (n : Nat) (p : Player) (hp : ps[n]? = some p) :
    (applyAt f ps n).2 = (f p).2 := by
  induction ps generalizing n with
  | nil => simp at hp
  | cons q ps ih =>
    cases n with
    | zero => simp at hp; subst hp; simp [applyAt]
    | succ n => simp at hp; simp [applyAt, ih n hp]

theorem applyAt_fst_get_self (f : Player → Player × Option ApiError)
    (ps : List Player) (n : Nat) (p : Player) (hp : ps[n]? = some p) :
    (applyAt f ps n).1[n]? = some (f p).1 := by
  induction ps generalizing n with
  | nil => simp at hp
  | cons q ps ih =>
    cases n with
    | zero => simp at hp; subst hp; simp [applyAt]
    | succ n => simp at hp; simp [applyAt, ih n hp]

theorem applyAt_fst_get_other (f : Player → Player × Option ApiError)
    (ps : List Player) (n j : Nat) (hj : j ≠ n) :
    (applyAt f ps n).1[j]? = ps[j]? := by
  induction ps generalizing n j with
  | nil => simp [applyAt]
  | cons q ps ih =>
    cases n with
    | zero =>
      cases j with
      | zero => exact absurd rfl hj
      | succ j => simp [applyAt]
    | succ n =>
      cases j with
      | zero => simp [applyAt]
      | succ j => simp [applyAt, ih n j (by omega)]

theorem applyAt_fst_id (f : Player → Player × Option ApiError)
    (ps : List Player) (n : Nat) (p : Player) (hp : ps[n]? = some p)
    (h : (f p).1 = p) : (applyAt f ps n).1 = ps := by
  induction ps generalizing n with
  | nil => simp at hp
  | cons q ps ih =>
    cases n with
    | zero => simp at hp; subst hp; simp [applyAt, h]
    | succ n => simp at hp; simp [applyAt, ih n hp]

theorem applyAt_mem (f : Player → Player × Option ApiError)
    (ps : List Player) (n : Nat) (q : Player)
    (hq : q ∈ (applyAt f ps n).1) : q ∈ ps ∨ ∃ p ∈ ps, q = (f p).1 := by
  induction ps generalizing n with
  | nil => simp [applyAt] at hq
  | cons r ps ih =>
    cases n with
    | zero =>
      simp [applyAt] at hq
      rcases hq with h | h
      · exact Or.inr ⟨r, by simp, h⟩
      · exact Or.inl (by simp [h])
    | succ n =>
      simp [applyAt] at hq
      rcases hq with h | h
      · exact Or.inl (by simp [h])
      · rcases ih n h with h' | ⟨p, hp, hq'⟩
        · exact Or.inl (by simp [h'])
        · exact Or.inr ⟨p, by simp [hp], hq'⟩

theorem popAt_fst (ps : List Player) (n : Nat) (h : n < ps.length) :
    (popAt ps n).1 = ps.take n ++ ps.drop (n + 1) := by
  induction ps generalizing n with
  | nil => simp at h
  | cons p ps ih =>
    cases n with
    | zero => simp [popAt]
    | succ n => simp at h; simp [popAt, ih n h]

theorem popAt_snd (ps : List Player) (n : Nat) (p : Player)
    (hp : ps[n]? = some p) : (popAt ps n).2 = .ok p := by
  induction ps generalizing n with
  | nil => simp at hp
  | cons q ps ih =>
    cases n with
    | zero => simp at hp; subst hp; simp [popAt]
    | succ n => simp at hp; simp [popAt, ih n hp]

theorem popAt_get_lt (ps : List Player) (n j : Nat) (hj : j < n) :
    (popAt ps n).1[j]? = ps[j]? := by
  induction ps generalizing n j with
  | nil => simp [popAt]
  | cons p ps ih =>
    cases n with
    | zero => omega
    | succ n =>
      cases j with
      | zero => simp [popAt]
      | succ j => simp [popAt, ih n j (by omega)]

theorem popAt_get_ge (ps : List Player) (n j : Nat) (hn : n < ps.length)
    (hj : n ≤ j) : (popAt ps n).1[j]? = ps[j + 1]? := by
  induction ps generalizing n j with
  | nil => simp at hn
  | cons p ps ih =>
    cases n with
    | zero => simp [popAt]
    | succ n =>
      cases j with
      | zero => omega
      | succ j => simp at hn; simp [popAt, ih n j hn (by omega)]

theorem popAt_count (ps : List Player) (n : Nat) (p : Player)
    (hp : ps[n]? = some p) :
    (popAt ps n).1.count p + 1 = ps.count p := by
  induction ps generalizing n with
  | nil => simp at hp
  | cons q ps ih =>
    cases n with
    | zero =>
      simp at hp; subst hp
      simp [popAt, List.count_cons_self]
    | succ n =>
      simp at hp
      simp [popAt, List.count_cons]
      have := ih n hp
      omega

/-! ## Helper lemmas about the `Player` methods -/

theorem Player.init_ok_iff (nm pos cl : String) (v : Rat) (p : Player) :
    Player.init nm pos cl v = .ok p ↔
      nm ≠ "" ∧ pos ≠ "" ∧ cl ≠ "" ∧ 0 ≤ v ∧ pos ∈ VALID_POSITIONS ∧
      p = ⟨pyStrip nm, pyStrip pos, pyStrip cl, v⟩ := by
  unfold Player.init
  split_ifs with h1 h2 h3
  · constructor
    · intro h; cases h
    · rintro ⟨ha, hb, hc, -⟩; tauto
  · constructor
    · intro h; cases h
    · rintro ⟨-, -, -, hv, -⟩; exact absurd h2 (not_lt.mpr hv)
  · push_neg at h1
    simp only [Except.ok.injEq]
    constructor
    · intro h
      exact ⟨h1.1, h1.2.1, h1.2.2, not_lt.mp h2, h3, h.symm⟩
    · rintro ⟨-, -, -, -, -, h⟩; exact h.symm
  · constructor
    · intro h; cases h
    · rintro ⟨-, -, -, -, hmem, -⟩; exact absurd hmem h3

theorem Player.init_err (nm pos cl : String) (v : Rat) :
    (∃ p, Player.init nm pos cl v = .ok p) ∨
      (∃ m, Player.init nm pos cl v = .error (.validation m)) := by
  unfold Player.init
  split_ifs
  · exact Or.inr ⟨_, rfl⟩
  · exact Or.inr ⟨_, rfl⟩
  · exact Or.inl ⟨_, rfl⟩
  · exact Or.inr ⟨_, rfl⟩

theorem inOrDecrisePlayerValue_fields (p : Player) (a : Rat) :
    (p.inOrDecrisePlayerValue a).name = p.name ∧
    (p.inOrDecrisePlayerValue a).position = p.position ∧
    (p.inOrDecrisePlayerValue a).club = p.club := by
  unfold Player.inOrDecrisePlayerValue
  split <;> exact ⟨rfl, rfl, rfl⟩

theorem setNewPlayerValue_fst_fields (p : Player) (w : Rat) :
    ((p.setNewPlayerValue w).1).name = p.name ∧
    ((p.setNewPlayerValue w).1).position = p.position ∧
    ((p.setNewPlayerValue w).1).club = p.club := by
  unfold Player.setNewPlayerValue
  split <;> exact ⟨rfl, rfl, rfl⟩

theorem setNewClub_fst_fields (p : Player) (c : String) (fee : Rat) :
    ((p.setNewClub c fee).1).name = p.name ∧
    ((p.setNewClub c fee).1).position = p.position := by
  unfold Player.setNewClub
  split_ifs
  · exact ⟨rfl, rfl⟩
  · exact ⟨rfl, rfl⟩
  · constructor
    · exact (setNewPlayerValue_fst_fields _ fee).1
    · exact (setNewPlayerValue_fst_fields _ fee).2.1

theorem setNewPlayerValue_fst_value_nonneg (p : Player) (w : Rat)
    (h : 0 ≤ p.value) : 0 ≤ ((p.setNewPlayerValue w).1).value := by
  unfold Player.setNewPlayerValue
  split
  · exact h
  · exact le_of_not_lt (by assumption)

theorem setNewClub_fst_value_nonneg (p : Player) (c : String) (fee : Rat)
    (h : 0 ≤ p.value) : 0 ≤ ((p.setNewClub c fee).1).value := by
  unfold Player.setNewClub
  split_ifs
  · exact h
  · exact h
  · exact setNewPlayerValue_fst_value_nonneg _ fee h

theorem setNewClub_ok (p : Player) (c : String) (fee : Rat)
    (hc : ¬(c = "" ∨ pyStrip c = "")) (hfee : 0 ≤ fee) :
    p.setNewClub c fee = ({ p with club := pyStrip c, value := fee }, none)
    := by
  unfold Player.setNewClub Player.setNewPlayerValue
  rw [if_neg hc, if_neg (not_lt.mpr hfee), if_neg (not_lt.mpr hfee)]
  simp

/-! ## Claim theorems -/

/-- C2: `AdjustValue(i, delta)` on an in-range index never errors and sets the
target's value to `value - |delta|` when `delta < 0` (no floor at zero) and to
`value + delta` when `delta >= 0`. -/
theorem claim2_adjust_value (ps : List Player) (i : Int) (delta : Rat)
    (p : Player) (h0 : 0 ≤ i) (h1 : i < (ps.length : Int))
    (hp : ps[i.toNat]? = some p) :
    (update_player_value ps i delta).2 = none ∧
    (delta < 0 →
      (update_player_value ps i delta).1[i.toNat]? =
        some { p with value := p.value - |delta| }) ∧
    (0 ≤ delta →
      (update_player_value ps i delta).1[i.toNat]? =
        some { p with value := p.value + delta }) := by
  have hguard : 0 ≤ i ∧ i < (ps.length : Int) := ⟨h0, h1⟩
  unfold update_player_value
  rw [if_pos hguard]
  refine ⟨?_, ?_, ?_⟩
  · rw [applyAt_snd _ _ _ p hp]
  · intro hd
    rw [applyAt_fst_get_self _ _ _ p hp]
    simp [Player.inOrDecrisePlayerValue, if_pos hd]
  · intro hd
    rw [applyAt_fst_get_self _ _ _ p hp]
    simp [Player.inOrDecrisePlayerValue, if_neg (not_lt.mpr hd)]

/-- C2 witness: on a one-player roster with value 100, `AdjustValue(0, -5)`
yields 95 and `AdjustValue(0, 5)` yields 105. -/
theorem claim2_adjust_value_witness :
    ((0 : Int) ≤ 0 ∧ (0 : Int) < (([(⟨"A", "GK", "X", 100⟩ : Player)]).length : Int) ∧
      ([(⟨"A", "GK", "X", 100⟩ : Player)])[(0 : Int).toNat]? = some ⟨"A", "GK", "X", 100⟩) ∧
    (update_player_value [⟨"A", "GK", "X", 100⟩] 0 (-5)).1[(0 : Int).toNat]? =
      some ⟨"A", "GK", "X", 95⟩ ∧
    (update_player_value [⟨"A", "GK", "X", 100⟩] 0 5).1[(0 : Int).toNat]? =
      some ⟨"A", "GK", "X", 105⟩ := by
  refine ⟨⟨by decide, by decide, by decide⟩, ?_, ?_⟩
  · have h := (claim2_adjust_value [⟨"A", "GK", "X", 100⟩] 0 (-5)
      ⟨"A", "GK", "X", 100⟩ (by decide) (by decide) (by decide)).2.1
      (by norm_num)
    norm_num at h
    exact h
  · have h := (claim2_adjust_value [⟨"A", "GK", "X", 100⟩] 0 5
      ⟨"A", "GK", "X", 100⟩ (by decide) (by decide) (by decide)).2.2
      (by norm_num)
    norm_num at h
    exact h

/-- C5: on an in-range index, `Transfer(i, newClub, fee)` with a non-blank
club and `fee >= 0` sets the target's club to the trimmed club and its value
to the fee (in both the `app/models.py` and the `backend/main.py` variant);
with `fee < 0` or a blank club it fails with a ValidationError leaving the
roster unchanged; an out-of-range index fails with NotFoundError. -/
theorem claim5_transfer (ps : List Player) (i : Int) (c : String)
    (fee : Rat) :
    (∀ p, 0 ≤ i → i < (ps.length : Int) → ps[i.toNat]? = some p →
      (¬(c = "" ∨ pyStrip c = "") → 0 ≤ fee →
        (transfer_player ps i c fee).1[i.toNat]? =
            some { p with club := pyStrip c, value := fee } ∧
          (transfer_player ps i c fee).2 = none ∧
          MainPy.setNewClub p c fee =
            ({ p with club := pyStrip c, value := fee }, none)) ∧
      ((fee < 0 ∨ c = "" ∨ pyStrip c = "") →
        (transfer_player ps i c fee).1 = ps ∧
          ∃ m, (transfer_player ps i c fee).2 =
            some (.validation m))) ∧
    ((i < 0 ∨ (ps.length : Int) ≤ i) →
      transfer_player ps i c fee = (ps, some .notFound)) := by
  constructor
  · intro p h0 h1 hp
    have hguard : 0 ≤ i ∧ i < (ps.length : Int) := ⟨h0, h1⟩
    constructor
    · intro hc hfee
      have hf := setNewClub_ok p c fee hc hfee
      refine ⟨?_, ?_, ?_⟩
      · unfold transfer_player
        rw [if_pos hguard, applyAt_fst_get_self _ _ _ p hp, hf]
      · unfold transfer_player
        rw [if_pos hguard, applyAt_snd _ _ _ p hp, hf]
      · unfold MainPy.setNewClub
        rw [if_neg hc, if_neg (not_lt.mpr hfee)]
    · intro herr
      by_cases hc : c = "" ∨ pyStrip c = ""
      · have hf : p.setNewClub c fee = (p, some (.validation .emptyClub)) := by
          unfold Player.setNewClub
          rw [if_pos hc]
        refine ⟨?_, .emptyClub, ?_⟩
        · unfold transfer_player
          rw [if_pos hguard]
          exact applyAt_fst_id _ _ _ p hp (by rw [hf])
        · unfold transfer_player
          rw [if_pos hguard, applyAt_snd _ _ _ p hp, hf]
      · have hfee : fee < 0 := by tauto
        have hf : p.setNewClub c fee =
            (p, some (.validation .invalidFormat)) := by
          unfold Player.setNewClub
          rw [if_neg hc, if_pos hfee]
        refine ⟨?_, .invalidFormat, ?_⟩
        · unfold transfer_player
          rw [if_pos hguard]
          exact applyAt_fst_id _ _ _ p hp (by rw [hf])
        · unfold transfer_player
          rw [if_pos hguard, applyAt_snd _ _ _ p hp, hf]
  · intro h
    unfold transfer_player
    rw [if_neg (by omega)]

/-- C5 witness: transferring the first initial player to "Real Madrid" for a
fee of 200 sets club "Real Madrid" and value 200 with no error, and index 9
is NotFound. -/
theorem claim5_transfer_witness :
    (¬(("Real Madrid" : String) = "" ∨ pyStrip "Real Madrid" = "") ∧
      (0 : Rat) ≤ 200 ∧
      players[(0 : Int).toNat]? = some ⟨"Erling Haaland", "FW", "Manchester City", 180⟩) ∧
    (transfer_player players 0 "Real Madrid" 200).1[(0 : Int).toNat]? =
      some ⟨"Erling Haaland", "FW", pyStrip "Real Madrid", 200⟩ ∧
    (transfer_player players 0 "Real Madrid" 200).2 = none ∧
    transfer_player players 9 "Real Madrid" 200 = (players, some .notFound)
    := by
  have h := ((claim5_transfer players 0 "Real Madrid" 200).1
    ⟨"Erling Haaland", "FW", "Manchester City", 180⟩
    (by decide) (by decide) (by decide)).1 (by decide) (by norm_num)
  refine ⟨⟨by decide, by norm_num, by decide⟩, h.1, h.2.1, ?_⟩
  exact (claim5_transfer players 9 "Real Madrid" 200).2 (by decide)

/-- C6: on an in-range index, `Delete(i)` returns the record at `i`, the
result is the roster with position `i` excised (one shorter, earlier
positions unchanged, later positions shifted down by one, one occurrence of
the removed record gone — so on a duplicate-free roster the removed record is
no longer contained); an out-of-range index fails with NotFoundError. -/
theorem claim6_delete (ps : List Player) (i : Int) :
    (∀ p, 0 ≤ i → i < (ps.length : Int) → ps[i.toNat]? = some p →
      (delete_player ps i).2 = .ok p ∧
      (delete_player ps i).1 = ps.take i.toNat ++ ps.drop (i.toNat + 1) ∧
      (delete_player ps i).1.length + 1 = ps.length ∧
      (∀ j : Nat, j < i.toNat → (delete_player ps i).1[j]? = ps[j]?) ∧
      (∀ j : Nat, i.toNat ≤ j → (delete_player ps i).1[j]? = ps[j + 1]?) ∧
      (delete_player ps i).1.count p + 1 = ps.count p ∧
      (ps.Nodup → p ∉ (delete_player ps i).1)) ∧
    ((i < 0 ∨ (ps.length : Int) ≤ i) →
      delete_player ps i = (ps, .error .notFound)) := by
  constructor
  · intro p h0 h1 hp
    have hguard : 0 ≤ i ∧ i < (ps.length : Int) := ⟨h0, h1⟩
    have hn : i.toNat < ps.length := by omega
    have hcount := popAt_count ps i.toNat p hp
    unfold delete_player
    rw [if_pos hguard]
    refine ⟨popAt_snd ps i.toNat p hp, popAt_fst ps i.toNat hn, ?_,
      fun j hj => popAt_get_lt ps i.toNat j hj,
      fun j hj => popAt_get_ge ps i.toNat j hn hj, hcount, ?_⟩
    · rw [popAt_fst ps i.toNat hn]
      simp only [List.length_append, List.length_take, List.length_drop]
      omega
    · intro hnd hmem
      have hle := (List.nodup_iff_count_le_one.mp hnd) p
      have hpos := List.count_pos_iff.mpr hmem
      omega
  · intro h
    unfold delete_player
    rw [if_neg (by omega)]

/-- C6 witness: deleting index 1 of the initial five-player roster returns
Bellingham, shortens the roster to four, keeps index 0, shifts index 1, and
no longer contains Bellingham; index 5 is NotFound. -/
theorem claim6_delete_witness :
    (players[(1 : Int).toNat]? =
      some ⟨"Jude Bellingham", "CM", "Real Madrid", 150⟩ ∧ players.Nodup) ∧
    (delete_player players 1).2 =
      .ok ⟨"Jude Bellingham", "CM", "Real Madrid", 150⟩ ∧
    (delete_player players 1).1.length + 1 = players.length ∧
    (delete_player players 1).1[0]? = players[0]? ∧
    (delete_player players 1).1[1]? = players[2]? ∧
    (⟨"Jude Bellingham", "CM", "Real Madrid", 150⟩ : Player) ∉
      (delete_player players 1).1 := by
  have h := (claim6_delete players 1).1
    ⟨"Jude Bellingham", "CM", "Real Madrid", 150⟩
    (by decide) (by decide) (by decide)
  exact ⟨⟨by decide, by decide⟩, h.1, h.2.2.1,
    h.2.2.2.1 0 (by decide), h.2.2.2.2.1 1 (by decide),
    h.2.2.2.2.2.2 (by decide)⟩

/-- C7: every indexed operation given `i < 0` or `i >= len(roster)` fails
with NotFoundError and leaves the roster unchanged. -/
theorem claim7_out_of_range (ps : List Player) (i : Int)
    (h : i < 0 ∨ (ps.length : Int) ≤ i) (amt v fee : Rat) (c : String) :
    update_player_value ps i amt = (ps, some .notFound) ∧
    set_player_value ps i v = (ps, some .notFound) ∧
    transfer_player ps i c fee = (ps, some .notFound) ∧
    delete_player ps i = (ps, .error .notFound) := by
  have hg : ¬(0 ≤ i ∧ i < (ps.length : Int)) := by omega
  unfold update_player_value set_player_value transfer_player delete_player
  rw [if_neg hg, if_neg hg, if_neg hg, if_neg hg]
  exact ⟨rfl, rfl, rfl, rfl⟩

/-- C7 witness: index -1 on the initial roster is NotFound for all four
operations, with the roster unchanged. -/
theorem claim7_out_of_range_witness :
    ((-1 : Int) < 0 ∨ (players.length : Int) ≤ -1) ∧
    update_player_value players (-1) 3 = (players, some .notFound) ∧
    set_player_value players (-1) 3 = (players, some .notFound) ∧
    transfer_player players (-1) "PSG" 3 = (players, some .notFound) ∧
    delete_player players (-1) = (players, .error .notFound) :=
  ⟨by decide, claim7_out_of_range players (-1) (by decide) 3 3 3 "PSG"⟩

/-- C8: a successful `Create` appends the new player at the end of the
roster, and `List()` returns the roster's records in insertion order (its
last element is the new player) without modifying the roster. -/
theorem claim8_create_append (ps : List Player) (nm pos cl : String)
    (v : Rat) (p : Player) (h : Player.init nm pos cl v = .ok p) :
    create_player ps nm pos cl v = (ps ++ [p], none) ∧
    (get_players (ps ++ [p])).1 = ps ++ [p] ∧
    (get_players (ps ++ [p])).2 = (ps ++ [p]).map Player.to_dict ∧
    (get_players (ps ++ [p])).2.getLast? = some (Player.to_dict p) := by
  have hv : ¬v < 0 := not_lt.mpr ((Player.init_ok_iff nm pos cl v p).mp h).2.2.2.1
  refine ⟨?_, rfl, rfl, ?_⟩
  · unfold create_player
    rw [if_neg hv, h]
  · unfold get_players
    rw [List.map_append]
    simp

/-- C8 witness: creating "Zidane"/"CM"/"Real Madrid"/100 on the initial
roster appends him, and `List()` ends with him. -/
theorem claim8_create_append_witness :
    Player.init "Zidane" "CM" "Real Madrid" 100 =
      .ok ⟨"Zidane", "CM", "Real Madrid", 100⟩ ∧
    create_player players "Zidane" "CM" "Real Madrid" 100 =
      (players ++ [⟨"Zidane", "CM", "Real Madrid", 100⟩], none) ∧
    (get_players (players ++ [⟨"Zidane", "CM", "Real Madrid", 100⟩])).2.getLast? =
      some (Player.to_dict ⟨"Zidane", "CM", "Real Madrid", 100⟩) := by
  have h := claim8_create_append players "Zidane" "CM" "Real Madrid" 100
    ⟨"Zidane", "CM", "Real Madrid", 100⟩ (by rfl)
  exact ⟨by rfl, h.1, h.2.2.2⟩

/-- C9: on an in-range index, AdjustValue and SetAbsoluteValue leave the
target's name, position and club unchanged, Transfer leaves the target's name
and position unchanged, and all three operations leave every other roster
entry untouched. -/
theorem claim9_frame (ps : List Player) (i : Int) (amt v fee : Rat)
    (c : String) (p : Player) (h0 : 0 ≤ i) (h1 : i < (ps.length : Int))
    (hp : ps[i.toNat]? = some p) :
    ((update_player_value ps i amt).1[i.toNat]?.map Player.name = some p.name ∧
     (update_player_value ps i amt).1[i.toNat]?.map Player.position =
       some p.position ∧
     (update_player_value ps i amt).1[i.toNat]?.map Player.club = some p.club) ∧
    ((set_player_value ps i v).1[i.toNat]?.map Player.name = some p.name ∧
     (set_player_value ps i v).1[i.toNat]?.map Player.position =
       some p.position ∧
     (set_player_value ps i v).1[i.toNat]?.map Player.club = some p.club) ∧
    ((transfer_player ps i c fee).1[i.toNat]?.map Player.name = some p.name ∧
     (transfer_player ps i c fee).1[i.toNat]?.map Player.position =
       some p.position) ∧
    (∀ j : Nat, j ≠ i.toNat →
      (update_player_value ps i amt).1[j]? = ps[j]? ∧
      (set_player_value ps i v).1[j]? = ps[j]? ∧
      (transfer_player ps i c fee).1[j]? = ps[j]?) := by
  have hguard : 0 ≤ i ∧ i < (ps.length : Int) := ⟨h0, h1⟩
  unfold update_player_value set_player_value transfer_player
  rw [if_pos hguard, if_pos hguard, if_pos hguard]
  refine ⟨?_, ?_, ?_, ?_⟩
  · rw [applyAt_fst_get_self _ _ _ p hp]
    have h := inOrDecrisePlayerValue_fields p amt
    simp [h.1, h.2.1, h.2.2]
  · rw [applyAt_fst_get_self _ _ _ p hp]
    have h := setNewPlayerValue_fst_fields p v
    simp [h.1, h.2.1, h.2.2]
  · rw [applyAt_fst_get_self _ _ _ p hp]
    have h := setNewClub_fst_fields p c fee
    simp [h.1, h.2]
  · intro j hj
    exact ⟨applyAt_fst_get_other _ ps i.toNat j hj,
      applyAt_fst_get_other _ ps i.toNat j hj,
      applyAt_fst_get_other _ ps i.toNat j hj⟩

/-- C9 witness: adjusting, setting and transferring at index 0 of the initial
roster keeps Haaland's identity fields and leaves index 1 untouched. -/
theorem claim9_frame_witness :
    ((0 : Int) ≤ 0 ∧ (0 : Int) < (players.length : Int) ∧
      players[(0 : Int).toNat]? =
        some ⟨"Erling Haaland", "FW", "Manchester City", 180⟩) ∧
    (update_player_value players 0 7).1[(0 : Int).toNat]?.map Player.name =
      some "Erling Haaland" ∧
    (set_player_value players 0 7).1[(0 : Int).toNat]?.map Player.club =
      some "Manchester City" ∧
    (transfer_player players 0 "PSG" 7).1[(0 : Int).toNat]?.map
      Player.position = some "FW" ∧
    (update_player_value players 0 7).1[1]? = players[1]? ∧
    (set_player_value players 0 7).1[1]? = players[1]? ∧
    (transfer_player players 0 "PSG" 7).1[1]? = players[1]? := by
  have h := claim9_frame players 0 7 7 7 "PSG"
    ⟨"Erling Haaland", "FW", "Manchester City", 180⟩
    (by decide) (by decide) (by decide)
  have hj := h.2.2.2 1 (by decide)
  exact ⟨⟨by decide, by decide, by decide⟩, h.1.1, h.2.1.2.2,
    h.2.2.1.2, hj.1, hj.2.1, hj.2.2⟩

/-- C10: in the `app/models.py` variant of Transfer (`setNewClub` delegating
to `setNewPlayerValue`), once its own guards pass (`newClub` non-blank,
`transferMoney >= 0`) the nested `setNewPlayerValue` call cannot hit its
negative-value error branch, so the call returns the fully updated player
with no error; and on every error path the player is left completely
unchanged — never with the club changed but not the value. -/
theorem claim10_transfer_atomic (p : Player) (c : String) (fee : Rat) :
    (¬(c = "" ∨ pyStrip c = "") → 0 ≤ fee →
      Player.setNewPlayerValue { p with club := pyStrip c } fee =
        ({ p with club := pyStrip c, value := fee }, none) ∧
      p.setNewClub c fee =
        ({ p with club := pyStrip c, value := fee }, none)) ∧
    (∀ e, (p.setNewClub c fee).2 = some e → (p.setNewClub c fee).1 = p) := by
  constructor
  · intro hc hfee
    constructor
    · unfold Player.setNewPlayerValue
      rw [if_neg (not_lt.mpr hfee)]
    · exact setNewClub_ok p c fee hc hfee
  · intro e he
    by_cases hc : c = "" ∨ pyStrip c = ""
    · unfold Player.setNewClub
      rw [if_pos hc]
    · by_cases hfee : fee < 0
      · unfold Player.setNewClub
        rw [if_neg hc, if_pos hfee]
      · rw [setNewClub_ok p c fee hc (not_lt.mp hfee)] at he
        cases he

/-- C10 witness: with club "PSG" and fee 220, `setNewClub` updates club and
value together with no error, and the blank-club error leaves the player
unchanged. -/
theorem claim10_transfer_atomic_witness :
    (¬(("PSG" : String) = "" ∨ pyStrip "PSG" = "") ∧ (0 : Rat) ≤ 220) ∧
    Player.setNewClub ⟨"Erling Haaland", "FW", "Manchester City", 180⟩
        "PSG" 220 =
      (⟨"Erling Haaland", "FW", pyStrip "PSG", 220⟩, none) ∧
    (Player.setNewClub ⟨"Erling Haaland", "FW", "Manchester City", 180⟩
        " " 220).1 = ⟨"Erling Haaland", "FW", "Manchester City", 180⟩ := by
  have h := (claim10_transfer_atomic
    ⟨"Erling Haaland", "FW", "Manchester City", 180⟩ "PSG" 220).1
    (by decide) (by norm_num)
  refine ⟨⟨by decide, by norm_num⟩, h.2, ?_⟩
  exact (claim10_transfer_atomic
    ⟨"Erling Haaland", "FW", "Manchester City", 180⟩ " " 220).2
    (.validation .emptyClub) (by decide)

/-- C1 counterexample: the initial roster satisfies `value >= 0` everywhere,
yet the mutating operation `AdjustValue(0, -200)` succeeds (no error) and
leaves Haaland's record at value -20 — the claimed invariant does not hold
after every mutating operation. -/
theorem claim1_counterexample :
    (∀ p ∈ players, 0 ≤ p.value) ∧
    (update_player_value players 0 (-200)).2 = none ∧
    (update_player_value players 0 (-200)).1[0]?.map Player.value =
      some (-20) ∧
    ¬(∀ p ∈ (update_player_value players 0 (-200)).1, 0 ≤ p.value) := by
  refine ⟨by decide, by decide, ?_, ?_⟩
  · norm_num [update_player_value, players, applyAt,
      Player.inOrDecrisePlayerValue]
  · intro h
    have hm := h ((update_player_value players 0 (-200)).1[0]?.getD
      ⟨"", "", "", 0⟩) (by
        norm_num [update_player_value, players, applyAt,
          Player.inOrDecrisePlayerValue])
    norm_num [update_player_value, players, applyAt,
      Player.inOrDecrisePlayerValue] at hm

/-- C1 amended: `value >= 0` is preserved by Create, SetAbsoluteValue and
Transfer (on success and on failure alike), but not by AdjustValue, which may
drive a value negative. -/
theorem claim1_value_nonneg_amended (ps : List Player)
    (h : ∀ p ∈ ps, 0 ≤ p.value) (i : Int) (nm pos cl c : String)
    (v w fee : Rat) :
    (∀ p ∈ (create_player ps nm pos cl v).1, 0 ≤ p.value) ∧
    (∀ p ∈ (set_player_value ps i w).1, 0 ≤ p.value) ∧
    (∀ p ∈ (transfer_player ps i c fee).1, 0 ≤ p.value) := by
  refine ⟨?_, ?_, ?_⟩
  · intro q hq
    by_cases hv : v < 0
    · rw [create_player, if_pos hv] at hq
      exact h q hq
    · cases hini : Player.init nm pos cl v with
      | error e =>
        rw [create_player, if_neg hv, hini] at hq
        exact h q hq
      | ok p =>
        rw [create_player, if_neg hv, hini] at hq
        simp at hq
        rcases hq with hq | hq
        · exact h q hq
        · have hfacts := (Player.init_ok_iff nm pos cl v p).mp hini
          rw [hq, hfacts.2.2.2.2.2]
          exact hfacts.2.2.2.1
  · intro q hq
    by_cases hg : 0 ≤ i ∧ i < (ps.length : Int)
    · rw [set_player_value, if_pos hg] at hq
      rcases applyAt_mem _ ps i.toNat q hq with hm | ⟨p, hm, rfl⟩
      · exact h q hm
      · exact setNewPlayerValue_fst_value_nonneg p w (h p hm)
    · rw [set_player_value, if_neg hg] at hq
      exact h q hq
  · intro q hq
    by_cases hg : 0 ≤ i ∧ i < (ps.length : Int)
    · rw [transfer_player, if_pos hg] at hq
      rcases applyAt_mem _ ps i.toNat q hq with hm | ⟨p, hm, rfl⟩
      · exact h q hm
      · exact setNewClub_fst_value_nonneg p c fee (h p hm)
    · rw [transfer_player, if_neg hg] at hq
      exact h q hq

/-- C1 amended witness: on the initial roster, Create, SetAbsoluteValue and
Transfer each leave every value non-negative. -/
theorem claim1_value_nonneg_amended_witness :
    (∀ p ∈ players, 0 ≤ p.value) ∧
    (∀ p ∈ (create_player players "Zidane" "CM" "Real Madrid" 100).1,
      0 ≤ p.value) ∧
    (∀ p ∈ (set_player_value players 0 7).1, 0 ≤ p.value) ∧
    (∀ p ∈ (transfer_player players 0 "PSG" 220).1, 0 ≤ p.value) := by
  have h := claim1_value_nonneg_amended players (by decide) 0
    "Zidane" "CM" "Real Madrid" "PSG" 100 7 220
  exact ⟨by decide, h.1, h.2.1, h.2.2⟩

/-- C3 counterexample: `SetAbsoluteValue(0, -5)` on the initial roster — via
the backend `setNewPlayerValue`, the variant the claim's first source cites —
does not set Haaland's value to `abs(-5) = 5`: it fails with the
negative-value ValidationError and leaves the value at 180. -/
theorem claim3_counterexample :
    (set_player_value players 0 (-5)).2 =
      some (.validation .negativeValue) ∧
    (set_player_value players 0 (-5)).1[0]?.map Player.value = some 180 ∧
    ¬((set_player_value players 0 (-5)).1[0]?.map Player.value = some 5 ∧
      (set_player_value players 0 (-5)).2 = none) := by
  refine ⟨by decide, by decide, ?_⟩
  rintro ⟨h, -⟩
  revert h
  decide

/-- C3 amended: the backend variant (`setNewPlayerValue` in
`src/backend/app/models.py`) sets the value to `newValue` — which equals
`abs(newValue)` — only for `newValue >= 0`, and rejects a negative `newValue`
with a ValidationError leaving the roster unchanged; only the terminal
variant (`src/playerObj.py`) coerces every input to `abs(newValue)`. -/
theorem claim3_set_value_amended (ps : List Player) (i : Int) (w : Rat)
    (p : Player) (h0 : 0 ≤ i) (h1 : i < (ps.length : Int))
    (hp : ps[i.toNat]? = some p) :
    (0 ≤ w →
      (set_player_value ps i w).1[i.toNat]? = some { p with value := w } ∧
      w = |w| ∧
      (set_player_value ps i w).2 = none) ∧
    (w < 0 →
      (set_player_value ps i w).1 = ps ∧
      (set_player_value ps i w).2 = some (.validation .negativeValue)) ∧
    Terminal.setNewPlayerValue p w = { p with value := |w| } := by
  have hguard : 0 ≤ i ∧ i < (ps.length : Int) := ⟨h0, h1⟩
  refine ⟨?_, ?_, rfl⟩
  · intro hw
    have hf : p.setNewPlayerValue w = ({ p with value := w }, none) := by
      unfold Player.setNewPlayerValue
      rw [if_neg (not_lt.mpr hw)]
    refine ⟨?_, (abs_of_nonneg hw).symm, ?_⟩
    · unfold set_player_value
      rw [if_pos hguard, applyAt_fst_get_self _ _ _ p hp, hf]
    · unfold set_player_value
      rw [if_pos hguard, applyAt_snd _ _ _ p hp, hf]
  · intro hw
    have hf : p.setNewPlayerValue w =
        (p, some (.validation .negativeValue)) := by
      unfold Player.setNewPlayerValue
      rw [if_pos hw]
    constructor
    · unfold set_player_value
      rw [if_pos hguard]
      exact applyAt_fst_id _ _ _ p hp (by rw [hf])
    · unfold set_player_value
      rw [if_pos hguard, applyAt_snd _ _ _ p hp, hf]

/-- C3 amended witness: `SetAbsoluteValue(0, 7)` puts Haaland at value 7 with
no error, `SetAbsoluteValue(0, -5)` leaves the roster unchanged with the
negative-value error, and the terminal variant maps -5 to 5. -/
theorem claim3_set_value_amended_witness :
    ((0 : Rat) ≤ 7 ∧ (-5 : Rat) < 0 ∧
      players[(0 : Int).toNat]? =
        some ⟨"Erling Haaland", "FW", "Manchester City", 180⟩) ∧
    (set_player_value players 0 7).1[(0 : Int).toNat]? =
      some ⟨"Erling Haaland", "FW", "Manchester City", 7⟩ ∧
    (set_player_value players 0 7).2 = none ∧
    (set_player_value players 0 (-5)).1 = players ∧
    (set_player_value players 0 (-5)).2 =
      some (.validation .negativeValue) ∧
    Terminal.setNewPlayerValue
      ⟨"Erling Haaland", "FW", "Manchester City", 180⟩ (-5) =
      ⟨"Erling Haaland", "FW", "Manchester City", 5⟩ := by
  have h7 := (claim3_set_value_amended players 0 7
    ⟨"Erling Haaland", "FW", "Manchester City", 180⟩
    (by decide) (by decide) (by decide)).1 (by norm_num)
  have h5 := (claim3_set_value_amended players 0 (-5)
    ⟨"Erling Haaland", "FW", "Manchester City", 180⟩
    (by decide) (by decide) (by decide)).2.1 (by norm_num)
  have ht := (claim3_set_value_amended players 0 (-5)
    ⟨"Erling Haaland", "FW", "Manchester City", 180⟩
    (by decide) (by decide) (by decide)).2.2
  refine ⟨⟨by norm_num, by norm_num, by decide⟩, h7.1, h7.2.2,
    h5.1, h5.2, ?_⟩
  rw [ht]
  norm_num

/-- C4 counterexample: `Create` with the whitespace-only name `" "` (club
"Chelsea", position "GK", value 10) does not fail — the constructor's
falsiness check passes for a non-empty whitespace string — and the appended
record's stored name is the empty string after trimming, violating both the
claimed rejection of blank names and the claimed non-emptiness of stored
names. -/
theorem claim4_counterexample :
    create_player [] " " "GK" "Chelsea" 10 =
      ([⟨"", "GK", "Chelsea", 10⟩], none) ∧
    pyStrip " " = "" := by
  exact ⟨by decide, by decide⟩

/-- C4 amended: `Create` fails with a ValidationError — appending nothing —
exactly on an *empty* (not merely blank) name, position or club, an invalid
position, or a negative value; a whitespace-only name or club passes
validation and is stored stripped, so a stored name or club can be empty
after trimming. -/
theorem claim4_create_validation_amended (ps : List Player)
    (nm pos cl : String) (v : Rat) :
    ((nm = "" ∨ cl = "" ∨ pos = "" ∨ v < 0 ∨ pos ∉ VALID_POSITIONS) →
      ∃ m, create_player ps nm pos cl v = (ps, some (.validation m))) ∧
    (nm ≠ "" → pos ∈ VALID_POSITIONS → cl ≠ "" → 0 ≤ v →
      create_player ps nm pos cl v =
        (ps ++ [⟨pyStrip nm, pyStrip pos, pyStrip cl, v⟩], none)) := by
  constructor
  · intro hbad
    by_cases hv : v < 0
    · exact ⟨.negativeValue, by rw [create_player, if_pos hv]⟩
    · rcases Player.init_err nm pos cl v with ⟨p, hok⟩ | ⟨m, herr⟩
      · have hgood := (Player.init_ok_iff nm pos cl v p).mp hok
        exact absurd hbad (by
          push_neg
          exact ⟨hgood.1, hgood.2.2.1, hgood.2.1, not_lt.mp hv,
            hgood.2.2.2.2.1⟩)
      · exact ⟨m, by rw [create_player, if_neg hv, herr]⟩
  · intro hnm hpos hcl hv
    have hpos' : pos ≠ "" := by
      rintro rfl
      revert hpos
      decide
    have hok : Player.init nm pos cl v =
        .ok ⟨pyStrip nm, pyStrip pos, pyStrip cl, v⟩ :=
      (Player.init_ok_iff nm pos cl v _).mpr
        ⟨hnm, hpos', hcl, hv, hpos, rfl⟩
    rw [create_player, if_neg (not_lt.mpr hv), hok]

/-- C4 amended witness: an empty name is rejected with the roster unchanged,
and a fully valid non-blank creation appends the stripped record. -/
theorem claim4_create_validation_amended_witness :
    (("" : String) = "" ∨ ("Chelsea" : String) = "" ∨
      ("GK" : String) = "" ∨ (10 : Rat) < 0 ∨
      ("GK" : String) ∉ VALID_POSITIONS) ∧
    (∃ m, create_player players "" "GK" "Chelsea" 10 =
      (players, some (.validation m))) ∧
    create_player players "Zidane" "CM" "Real Madrid" 100 =
      (players ++ [⟨pyStrip "Zidane", pyStrip "CM", pyStrip "Real Madrid",
        100⟩], none) := by
  refine ⟨Or.inl rfl, ?_, ?_⟩
  · exact (claim4_create_validation_amended players "" "GK" "Chelsea" 10).1
      (Or.inl rfl)
  · exact (claim4_create_validation_amended players "Zidane" "CM"
      "Real Madrid" 100).2 (by decide) (by decide) (by decide) (by norm_num)
